import Mathlib

/-!
Verification of the ChatSphere document-ingestion pipeline and retrieval engine.

This file gives a shallow embedding of the backend's core modules and proves
properties of them:

* `src/backend/src/db/vector_store.py` — `MilvusDB` and `QdrantDB`
  (validation, insertion, collection setup, similarity search with
  cutoff relaxation);
* `src/backend/src/services/query_engine.py` — `QueryEngine.query`,
  `_assess_query_complexity`, `_query_llm_only`, `create_service_context`;
* `src/backend/src/services/document_processor.py` — `process_document`,
  `_process_content`, `process_document_immediately`, `delete_document`.

Modelling conventions:

* Python floats become `ℚ`; a possible NaN component of an embedding is made
  explicit by the `FVal` type.
* Every external effect (Firestore, Firebase Storage, the Milvus/Qdrant
  server, the embedding model, the LLM provider) is an input supplied through
  an environment record; a call that can raise is an `Except String`.
  A Python exception is an `Except.error` carrying `str(e)`.
* Optional dict keys become `Option` fields; Python truthiness of a string /
  list is emptiness.
* `json.dumps` of a metadata dict is abstracted to a concrete encoding whose
  exact text no claim depends on; only presence and length matter.
-/

/-- A float value in an embedding vector: either NaN or a rational. -/
inductive FVal where
  | nan : FVal
  | val : ℚ → FVal
deriving DecidableEq, Repr

/-- `np.isnan` on one component. -/
def FVal.isNaN : FVal → Bool
  | .nan => true
  | .val _ => false

/-- The metadata value attached to a chunk record: either already a JSON
string or a Python dict (represented by its serialized form). -/
inductive MetaVal where
  | str : String → MetaVal
  | dict : String → MetaVal
deriving DecidableEq, Repr

/-- One element of the `embeddings_data` list passed to
`insert_embeddings`: a Python dict whose keys may be absent. -/
structure ChunkRecord where
  id : Option String
  document_id : Option String
  chunk_id : Option String
  text : Option String
  embedding : Option (List FVal)
  metadata : Option MetaVal
deriving DecidableEq, Repr

/-- `json.dumps({"document_id": d, "chunk_id": c})` as produced at
vector_store.py:184. Braces are written with hex escapes. -/
def json_dumps_pair (d c : String) : String :=
  "\x7b\"document_id\": \"" ++ d ++ "\", \"chunk_id\": \"" ++ c ++ "\"\x7d"

/-- The per-record checks of `MilvusDB.validate_embeddings` that lead to the
record being skipped (vector_store.py:162-174): required keys present,
embedding length equals the configured dimension, no NaN component. -/
def recordValid (dim : ℕ) (r : ChunkRecord) : Bool :=
  r.id.isSome && r.document_id.isSome && r.chunk_id.isSome &&
    r.text.isSome &&
    (match r.embedding with
     | some e => decide (e.length = dim) && !(e.any FVal.isNaN)
     | none => false)

/-- The in-place mutations `validate_embeddings` applies to a record it
keeps (vector_store.py:177-195): truncate text to 65000 characters,
materialize / serialize metadata, truncate it to 65000 characters. -/
def normalizeRecord (r : ChunkRecord) : ChunkRecord :=
  let t := (r.text.getD "").take 65000
  let m :=
    match r.metadata with
    | none => json_dumps_pair (r.document_id.getD "") (r.chunk_id.getD "")
    | some (.dict s) => s
    | some (.str s) => s
  ⟨r.id, r.document_id, r.chunk_id, some t, r.embedding, some (.str (m.take 65000))⟩

namespace MilvusDB

/-- `MilvusDB.validate_embeddings` (vector_store.py:149-202): walk the batch
in order, drop records failing a check, keep the (mutated) rest. -/
def validate_embeddings (dim : ℕ) : List ChunkRecord → List ChunkRecord
  | [] => []
  | r :: rest =>
      if recordValid dim r then normalizeRecord r :: validate_embeddings dim rest
      else validate_embeddings dim rest

/-- `MilvusDB.insert_embeddings` (vector_store.py:204-270).
`connected` is the connection state after the reconnect attempt (a failed
reconnect raises out of the method); `insertOk` is whether the server accepts
the insert within the retry budget (exhausted retries re-raise). Returns the
ids of the validated records that were handed to the server. -/
def insert_embeddings (dim : ℕ) (connected insertOk : Bool)
    (datas : List ChunkRecord) : Except String (List String) :=
  if datas.isEmpty then .ok []
  else if !connected then .error "connection failed"
  else
    let valid := validate_embeddings dim datas
    if valid.isEmpty then .ok []
    else if insertOk then .ok (valid.map (fun r => r.id.getD ""))
    else .error "insert failed"

end MilvusDB

namespace QdrantDB

/-- `QdrantDB.insert_embeddings` (vector_store.py:458-491): builds one point
per input record with NO validation, upserts them all, and returns every
`data.get("id")` (possibly `None`). `upsertOk` is whether the server call
succeeds; a failure raises out of the method. -/
def insert_embeddings (upsertOk : Bool) (datas : List ChunkRecord) :
    Except String (List (Option String)) :=
  if datas.isEmpty then .ok []
  else if upsertOk then .ok (datas.map (·.id))
  else .error "upsert failed"

end QdrantDB

/-- The state of the target vector collection on the server. -/
structure VColl where
  present : Bool
  dim : ℕ
  metric : String
  rows : List ChunkRecord
deriving DecidableEq, Repr

namespace MilvusDB

/-- `MilvusDB.initialize_collection` (vector_store.py:97-147): when not
connected, log and return `False`; when the collection exists, only load it
(no change); otherwise create it with the configured dimension and a COSINE
index. -/
def init_collection (connected : Bool) (dim : ℕ) (st : VColl) : Bool × VColl :=
  if !connected then (false, st)
  else if st.present then (true, st)
  else (true, ⟨true, dim, "COSINE", []⟩)

end MilvusDB

namespace QdrantDB

/-- The collection setup in `QdrantDB.__init__` (vector_store.py:408-434):
if the collection already exists it is DELETED, then a fresh empty
collection with the configured dimension and COSINE distance is created. -/
def init_collection (dim : ℕ) (_st : VColl) : VColl :=
  ⟨true, dim, "COSINE", []⟩

end QdrantDB

/-- One formatted search hit (vector_store.py:319-325). -/
structure Hit where
  score : ℚ
  document_id : String
  chunk_id : String
  text : String
  metadata : String
deriving DecidableEq, Repr

/-- The server-side ANN search: the ranked hit list for the query, of which
the server returns the first `limit`, followed by the client-side cutoff
filter (`if hit.score < similarity_cutoff: continue`). -/
def cutoffFilter (hits : List Hit) (limit : ℕ) (cutoff : ℚ) : List Hit :=
  (hits.take limit).filter (fun h => !decide (h.score < cutoff))

namespace MilvusDB

/-- `MilvusDB.search_similar` (vector_store.py:272-343): filter the top
`limit` hits by the cutoff; if nothing passes and the cutoff is above 0.4,
recursively retry with the cutoff lowered by 0.2. `hits` is the ranked
corpus for the fixed query vector (the same on every retry). -/
def search_similar (hits : List Hit) (limit : ℕ) (cutoff : ℚ) : List Hit :=
  let res := cutoffFilter hits limit cutoff
  if h : res.isEmpty = true ∧ (2/5 : ℚ) < cutoff then
    search_similar hits limit (cutoff - 1/5)
  else res
termination_by (Int.ceil (5 * cutoff - 2)).toNat
decreasing_by
  have h1 : (5 * (cutoff - 1/5) - 2 : ℚ) = (5 * cutoff - 2) - 1 := by ring
  have h2 : (0 : ℤ) < Int.ceil (5 * cutoff - 2 : ℚ) :=
    Int.ceil_pos.mpr (by linarith [h.2])
  have h3 : Int.ceil (5 * (cutoff - 1/5) - 2 : ℚ) =
      Int.ceil (5 * cutoff - 2 : ℚ) - 1 := by
    rw [h1]
    exact_mod_cast Int.ceil_sub_int (5 * cutoff - 2 : ℚ) 1
  omega

end MilvusDB

namespace QdrantDB

/-- `QdrantDB.search_similar` (vector_store.py:493-513): a single pass —
filter the top `limit` hits by the cutoff, no relaxation. -/
def search_similar (hits : List Hit) (limit : ℕ) (cutoff : ℚ) : List Hit :=
  cutoffFilter hits limit cutoff

end QdrantDB

/-! ## Query engine (`query_engine.py`) -/

/-- Helper for `pyWords`: walk the characters, accumulating the current
word (reversed) and emitting it at each whitespace boundary. -/
def pyWordsAux : List Char → List Char → List String
  | [], acc => if acc.isEmpty then [] else [String.mk acc.reverse]
  | c :: cs, acc =>
      if c.isWhitespace then
        if acc.isEmpty then pyWordsAux cs []
        else String.mk acc.reverse :: pyWordsAux cs []
      else pyWordsAux cs (c :: acc)

/-- `str.split()` as Python does it: split on runs of whitespace, discarding
empty pieces. -/
def pyWords (s : String) : List String :=
  pyWordsAux s.data []

/-- `str.lower()`: character-wise lowercasing. -/
def pyLower (s : String) : String :=
  String.mk (s.data.map Char.toLower)

/-- The `complex_indicators` list of `_assess_query_complexity`
(query_engine.py:252). -/
def complexIndicators : List String :=
  ["why", "how", "explain", "describe", "compare", "contrast",
   "analyze", "relationship", "difference"]

namespace QueryEngine

/-- `QueryEngine._assess_query_complexity` (query_engine.py:240-263). -/
def assess_query_complexity (q : String) : String :=
  let words := pyWords q
  let hasComplexIndicator := words.any (fun w => complexIndicators.contains (pyLower w))
  if words.length > 15 || hasComplexIndicator then "high"
  else if words.length > 8 then "medium"
  else "low"

/-- The retrieval-parameter selection inlined in `QueryEngine.query`
(query_engine.py:131-141): defaults (3, 0.6), overridden to (8, 0.5) for
high and (5, 0.55) for medium complexity. -/
def retrieval_params (q : String) : ℕ × ℚ :=
  let c := assess_query_complexity q
  if c = "high" then (8, 1/2)
  else if c = "medium" then (5, 11/20)
  else (3, 3/5)

end QueryEngine

/-- The shared `Settings.llm` configuration (llama_index global settings):
model, max_tokens, temperature. -/
structure LlmSettings where
  model : String
  maxTokens : ℕ
  temperature : ℚ
deriving DecidableEq, Repr

/-- The `app_settings` LLM defaults (config.py:44-46), from which
`QueryEngine.__init__` builds `self.llm`. -/
def defaultLlmSettings : LlmSettings :=
  ⟨"mixtral-8x7b-32768", 2048, 7/10⟩

namespace QueryEngine

/-- `QueryEngine.create_service_context` (query_engine.py:59-79): assigns a
new Groq client to the GLOBAL `Settings.llm` — built with the override
temperature when given, else `self.llm` (the app defaults). Returns the new
value of the global. -/
def create_service_context (temperature : Option ℚ) : LlmSettings :=
  match temperature with
  | some t => ⟨defaultLlmSettings.model, defaultLlmSettings.maxTokens, t⟩
  | none => defaultLlmSettings

end QueryEngine

/-- The shape of the object the Groq client returns from `llm.chat`, as
discriminated by `_query_llm_only` (query_engine.py:347-359). -/
inductive LLMResp where
  | messageContent : String → LLMResp
  | dictContent : String → LLMResp
  | strContent : String → LLMResp
  | otherShape : LLMResp
deriving DecidableEq, Repr

/-- One retrieved source node of the RAG response: whether it carries a
`node.metadata` attribute pair, and the provenance fields. -/
structure SrcNode where
  hasMeta : Bool
  document_id : String
  chunk_id : String
  score : ℚ
deriving DecidableEq, Repr

/-- The value produced by `query_engine.query(query)` on the RAG path. -/
structure RagResp where
  text : String
  nodes : List SrcNode
deriving DecidableEq, Repr

/-- The external world of one `QueryEngine.query` call. `ragResponse` is a
function of the `(top_k, cutoff)` pair the engine passes to the retriever. -/
structure QueryEnv where
  getChatbot : Except String (Option (List String))
  createVS : Except String Unit
  ragResponse : ℕ → ℚ → Except String RagResp
  llmResult : Except String LLMResp

/-- A provenance entry of the returned `sources` list
(query_engine.py:182-186). -/
structure Source where
  document_id : String
  chunk_id : String
  score : ℚ
deriving DecidableEq, Repr

/-- The `(response_text, sources, token_estimate, rag_status)` tuple returned
by `query`, together with the global `Settings.llm` state after the call. -/
structure QueryOutcome where
  text : String
  sources : List Source
  tokens : ℕ
  status : String
  settingsAfter : LlmSettings
deriving DecidableEq, Repr

namespace QueryEngine

/-- `QueryEngine._query_llm_only` (query_engine.py:298-369): builds a local
Groq client, calls it, and unwraps the heterogeneous response shape; all
exceptions are caught and replaced by a canned message. Always returns a
dict with a "response" key, never raises, and never touches the global
`Settings`. -/
def query_llm_only (env : QueryEnv) : String :=
  match env.llmResult with
  | .error _ =>
      "I\x27m having trouble generating a response right now. Please try again later."
  | .ok (.messageContent s) => s
  | .ok (.dictContent s) => s
  | .ok (.strContent s) => s
  | .ok .otherShape => "I\x27m having trouble generating a response right now."

/-- Python truthiness test of the `document_ids` argument: falsy when `None`
or the empty list. -/
def idsFalsy : Option (List String) → Bool
  | none => true
  | some [] => true
  | some (_ :: _) => false

/-- The disclaimer sentence prepended on the `no_context_found` path
(query_engine.py:210). -/
def noContextPre : String :=
  "I couldn\x27t find specific information about that in the knowledge base. "

/-- The apology used when the RAG engine returns whitespace-only text
(query_engine.py:197). -/
def emptyRagApology : String :=
  "I apologize, but I\x27m having trouble generating a response based on the available information."

/-- The inner `except` branch of `query` (query_engine.py:216-224): a vector
search error falls back to LLM-only with status `error`; the global
`Settings` was already reassigned by `create_service_context`. -/
def innerErrorOutcome (env : QueryEnv) (g1 : LlmSettings) : QueryOutcome :=
  ⟨query_llm_only env, [], 0, "error", g1⟩

/-- The RAG path of `query` once the vector store index was built
(query_engine.py:127-214), driven by the retrieval outcome. -/
def ragPathOutcome (q : String) (g1 : LlmSettings)
    (r : RagResp) : QueryOutcome :=
  let sources : List Source :=
    (r.nodes.filter (·.hasMeta)).map (fun n => ⟨n.document_id, n.chunk_id, n.score⟩)
  let st0 := if r.nodes.isEmpty then "no_context_found" else "rag_success"
  let text0 := if r.text.trim = "" then emptyRagApology else r.text
  let st1 := if sources.isEmpty && !(st0 = "no_context_found") then "llm_fallback" else st0
  let tokens := (pyWords q).length + (pyWords text0).length
  let text1 :=
    if st1 = "no_context_found" && !(text0.startsWith noContextPre) then
      noContextPre ++ text0
    else text0
  ⟨text1, sources, tokens, st1, g1⟩

/-- `QueryEngine.query` (query_engine.py:81-238). `g` is the global
`Settings.llm` at entry; the outcome carries its value at exit.
The outer `try` covers chatbot resolution; the inner `try` covers the
vector-search path; `_query_llm_only` is total, so the outer handler's own
fallback never raises and always reports `llm_fallback`. -/
def query (g : LlmSettings) (env : QueryEnv) (q : String)
    (document_ids : Option (List String)) (chatbot_id : Option String)
    (temperature : Option ℚ) : QueryOutcome :=
  -- chatbot scope resolution (query_engine.py:100-109)
  let resolved : Except String (Option (List String)) :=
    if chatbot_id.isSome && idsFalsy document_ids then
      match env.getChatbot with
      | .error m => .error m
      | .ok none => .error ("Chatbot not found")  -- raised ValueError
      | .ok (some docs) => .ok (some docs)
    else .ok document_ids
  match resolved with
  | .error _ =>
      -- outer except (query_engine.py:226-238): LLM-only fallback
      ⟨query_llm_only env, [], 0, "llm_fallback", g⟩
  | .ok ids =>
      if idsFalsy ids then
        -- empty scope (query_engine.py:112-115)
        ⟨query_llm_only env, [], 0, "no_documents", g⟩
      else
        -- inner try (query_engine.py:117-224)
        let g1 := create_service_context temperature
        match env.createVS with
        | .error _ => innerErrorOutcome env g1
        | .ok _ =>
            let p := retrieval_params q
            match env.ragResponse p.1 p.2 with
            | .error _ => innerErrorOutcome env g1
            | .ok r => ragPathOutcome q g1 r

/-- The environment assumption that the LLM provider never returns an empty
content string (any failure shape is already replaced by a canned,
non-empty message). -/
def llmNonempty (env : QueryEnv) : Bool :=
  match env.llmResult with
  | .ok (.messageContent s) => s ≠ ""
  | .ok (.dictContent s) => s ≠ ""
  | .ok (.strContent s) => s ≠ ""
  | _ => true

end QueryEngine

/-! ## Document pipeline (`document_processor.py`) -/

/-- The Firestore document record fields the pipeline reads or writes. -/
structure DocRecord where
  processingStatus : String
  chunkCount : Option ℕ
  vectorIds : List String
  error : Option String
  storageUri : Option String
  content : Option String
deriving DecidableEq, Repr

/-- The Firestore state for the one document being processed: `none` means
the record is absent. -/
def PipelineState := Option DocRecord
deriving DecidableEq, Repr

/-- One prepared chunk dict (document_processor.py:393-400). -/
structure Chunk where
  id : String
  document_id : String
  chunk_id : String
  text : String
  embedding : List ℚ
  metadata : String
deriving DecidableEq, Repr

/-- The abstracted `json.dumps(chunk_metadata)` for a chunk: document id,
chunk index, total chunk count and raw content, in an injective encoding
whose exact text no claim depends on. -/
def chunkMetaDump (docId : String) (i total : ℕ) (content : String) : String :=
  docId ++ "#" ++ toString i ++ "/" ++ toString total ++ "#" ++ content

/-- The external world of one pipeline run. Each field is the outcome of one
awaited call: `getErr` a Firestore `get_document` exception, `downloadRes`
the Firebase download, `extractRes` the text-extraction library result (the
texts of the loaded documents), `chunkRes` the `SentenceSplitter` node
texts, `embedRes` the embedding batch, `insertRes` the vector-store insert,
`unlinkErr` an `os.unlink` failure during cleanup, `uuid` the chunk-id
generator. -/
structure PipeEnv where
  getErr : Option String
  downloadRes : Except String Unit
  extractRes : Except String (List String)
  chunkRes : Except String (List String)
  embedRes : Except String (List (List ℚ))
  insertRes : Except String Unit
  unlinkErr : Option String
  uuid : ℕ → String

/-- What `_process_content` is extracting from: a downloaded file (the
extractor library runs) or direct text content (passed through unchanged,
document_processor.py:289-292). -/
inductive ContentSource where
  | file : ContentSource
  | text : String → ContentSource

/-- Whether the pipeline reached and ran the cleanup step, and whether the
scratch file was actually removed. -/
structure PipeTrace where
  cleanupRan : Bool
  tempFileRemoved : Bool
deriving DecidableEq, Repr

namespace DocumentProcessor

/-- `DocumentProcessor._process_content` (document_processor.py:229-421).
Every step failure — an exception, empty extraction, zero chunks, an
embedding-count mismatch, a storage error — is recorded into
`processingStats` and turned into an empty return; the function itself
never raises. -/
def process_content (env : PipeEnv) (docId : String) (src : ContentSource) :
    List Chunk :=
  -- STEP 2: TEXT EXTRACTION (pdf / txt / generic reader branches all
  -- delegate to the external extractor; direct text is passed through)
  let extracted : Option (List String) :=
    match src with
    | .text t => some [t]
    | .file =>
        match env.extractRes with
        | .error _ => none
        | .ok texts => some texts
  match extracted with
  | none => []
  | some texts =>
    if texts.isEmpty || texts.all (fun t => t = "") then []
    else
      -- STEP 3: CHUNKING
      match env.chunkRes with
      | .error _ => []
      | .ok nodes =>
        if nodes.isEmpty then []
        else
          -- STEP 4: EMBEDDING
          match env.embedRes with
          | .error _ => []
          | .ok embs =>
            if embs.length ≠ nodes.length then []
            else
              -- STEP 5: STORAGE
              let chunks := (nodes.zip embs).enum.map (fun p =>
                ⟨env.uuid p.1, docId, env.uuid p.1, p.2.1, p.2.2,
                  chunkMetaDump docId p.1 nodes.length p.2.1⟩)
              match env.insertRes with
              | .error _ => []
              | .ok _ => chunks

/-- The `_update_document_status(id, "failed", msg, stats)` write
(document_processor.py:211-227): sets `processingStatus`, and sets `error`
only when the message is truthy (`if error:`). A write against an absent
record raises inside the helper's own try/except and is swallowed. -/
def applyFailed (m : String) : PipelineState → PipelineState
  | none => none
  | some d =>
      some ⟨"failed", d.chunkCount, d.vectorIds,
        (if m = "" then d.error else some m), d.storageUri, d.content⟩

/-- The completed-status write of `process_document`
(document_processor.py:158-167): status, chunkCount, vectorIds, and an
explicit `error: None`. -/
def applyCompleted (chunks : List Chunk) : PipelineState → PipelineState
  | none => none
  | some d =>
      some ⟨"completed", some chunks.length, chunks.map (·.id), none,
        d.storageUri, d.content⟩

/-- The tail of `process_document` after content processing
(document_processor.py:143-178): zero chunks fail the document, otherwise
write the completed record and return `(chunk_count, vector_ids)`. -/
def finishProcess (chunks : List Chunk) (st : PipelineState) (tr : PipeTrace) :
    Except String (ℕ × List String) × PipelineState × PipeTrace :=
  if chunks.isEmpty then
    (.error "No chunks created", applyFailed "No chunks created" st, tr)
  else
    (.ok (chunks.length, chunks.map (·.id)), applyCompleted chunks st, tr)

/-- `DocumentProcessor.process_document` (document_processor.py:49-183).
The status is first set to `processing`; a file-backed document is
downloaded, processed, and its scratch file removed in a `finally` block;
direct content skips download and cleanup. The result models the returned
dict: `ok (chunk_count, vector_ids)` or `error msg`. -/
def process_document (env : PipeEnv) (docId : String) (st : PipelineState) :
    Except String (ℕ × List String) × PipelineState × PipeTrace :=
  let noTrace : PipeTrace := ⟨false, false⟩
  let st1 : PipelineState :=
    match st with
    | none => none
    | some d => some ⟨"processing", d.chunkCount, d.vectorIds, d.error,
        d.storageUri, d.content⟩
  match env.getErr with
  | some m => (.error m, applyFailed m st1, noTrace)
  | none =>
    match st1 with
    | none =>
        (.error "Document not found", applyFailed "Document not found" st1, noTrace)
    | some d =>
      match d.storageUri with
      | some _ =>
          -- STEP 1: DOWNLOAD
          match env.downloadRes with
          | .error m =>
              let msg := "Failed to download file: " ++ m
              (.error msg, applyFailed msg st1, noTrace)
          | .ok _ =>
              -- STEPS 2-5 inside try ... finally: STEP 6 CLEANUP always runs
              let chunks := process_content env docId .file
              let tr : PipeTrace := ⟨true, env.unlinkErr.isNone⟩
              finishProcess chunks st1 tr
      | none =>
        match d.content with
        | some t =>
            if t = "" then
              (.error "Document has no content or file",
                applyFailed "Document has no content or file" st1, noTrace)
            else
              finishProcess (process_content env docId (.text t)) st1 noTrace
        | none =>
            (.error "Document has no content or file",
              applyFailed "Document has no content or file" st1, noTrace)

/-- `DocumentProcessor.delete_document` needs the vector rows and the stored
file as well as the record. -/
structure DelState where
  doc : Option DocRecord
  vrows : List Chunk
  filePresent : Bool
deriving DecidableEq, Repr

/-- Environment of one `delete_document` call: `vdelOk` is the boolean
outcome of `delete_by_document_id` (which catches its own exceptions and
reports `False`, leaving the rows in place); `fileDelRes` is
`FirebaseStorage.delete_file` (firebase.py:557-561 — `blob.delete()` with NO
exception handling); `docDelRes` is the Firestore record deletion. -/
structure DelEnv where
  vdelOk : Bool
  fileDelRes : Except String Unit
  docDelRes : Except String Unit

/-- `DocumentProcessor.delete_document` (document_processor.py:423-448):
missing record returns `False`; otherwise delete vector rows (result
ignored), then the backing file when there is one — an exception here
PROPAGATES, aborting the record deletion — then the Firestore record. -/
def delete_document (env : DelEnv) (docId : String) (st : DelState) :
    Except String Bool × DelState :=
  match st.doc with
  | none => (.ok false, st)
  | some d =>
    let rows1 := if env.vdelOk then st.vrows.filter (fun c => c.document_id ≠ docId)
      else st.vrows
    match d.storageUri with
    | some _ =>
        match env.fileDelRes with
        | .error m => (.error m, ⟨st.doc, rows1, st.filePresent⟩)
        | .ok _ =>
            match env.docDelRes with
            | .error m => (.error m, ⟨st.doc, rows1, false⟩)
            | .ok _ => (.ok true, ⟨none, rows1, false⟩)
    | none =>
        match env.docDelRes with
        | .error m => (.error m, ⟨st.doc, rows1, st.filePresent⟩)
        | .ok _ => (.ok true, ⟨none, rows1, st.filePresent⟩)

/-- Outcome of one iteration of the retry loop in
`process_document_immediately`. -/
inductive ImmAttempt where
  | success : PipelineState → ImmAttempt
  | failMsg : String → ImmAttempt

/-- One attempt of `process_document_immediately`
(document_processor.py:478-556): fetch the record, check required fields,
download, run `_process_content` (total), clean up best-effort, and write
the completed status — `chunkCount` is set to `len(chunks)` WITHOUT checking
for zero, `vectorIds` is never written, and `error` is not cleared. -/
def immediateAttempt (e : PipeEnv) (docId : String) (st : PipelineState) :
    ImmAttempt :=
  match e.getErr with
  | some m => .failMsg m
  | none =>
    match st with
    | none => .failMsg "Document not found"
    | some d =>
      match d.storageUri with
      | none => .failMsg "missing required fields: storageUri"
      | some _ =>
        match e.downloadRes with
        | .error m => .failMsg m
        | .ok _ =>
            let chunks := process_content e docId .file
            .success (some ⟨"completed", some chunks.length, d.vectorIds,
              d.error, d.storageUri, d.content⟩)

/-- The retry loop of `process_document_immediately`: up to `remaining`
attempts (3 at the top call), retrying on any failure; the last failure
writes the failed status (with a non-empty message) and re-raises. -/
def immLoop (envs : ℕ → PipeEnv) (docId : String) (st : PipelineState) :
    ℕ → ℕ → Except String Bool × PipelineState
  | _, 0 => (.ok false, st)
  | attempt, r + 1 =>
    match immediateAttempt (envs attempt) docId st with
    | .success st1 => (.ok true, st1)
    | .failMsg m =>
        if r = 0 then
          let full := "Error processing document " ++ docId ++ ": " ++ m
          (.error full, applyFailed full st)
        else immLoop envs docId st (attempt + 1) r

/-- `DocumentProcessor.process_document_immediately`
(document_processor.py:465-583) with its default `max_retries = 3`. -/
def process_document_immediately (envs : ℕ → PipeEnv) (docId : String)
    (st : PipelineState) : Except String Bool × PipelineState :=
  immLoop envs docId st 0 3

end DocumentProcessor

/-! ## Concrete instances used in witnesses and counterexamples -/

/-- A corpus whose only hit scores 0.5 — the spec's cutoff-relaxation test. -/
def h05 : Hit := ⟨1/2, "d1", "c1", "chunk text", "meta"⟩

/-- A fully valid chunk record for a store of dimension 3. -/
def goodRec : ChunkRecord :=
  ⟨some "a", some "doc1", some "ca", some "text a",
    some [.val 1, .val 0, .val 0], some (.str "m")⟩

/-- A record whose embedding has the wrong dimension (2 instead of 3). -/
def badRec : ChunkRecord :=
  ⟨some "b", some "doc1", some "cb", some "text b",
    some [.val 1, .val 0], some (.str "m")⟩

/-- An existing collection holding one record. -/
def popVColl : VColl := ⟨true, 3, "COSINE", [goodRec]⟩

/-- A query environment in which every external call succeeds. -/
def envLlmOk : QueryEnv :=
  ⟨.ok none, .ok (),
   fun _ _ => .ok ⟨"Answer text", [⟨true, "d1", "c1", 9/10⟩]⟩,
   .ok (.messageContent "Hello!")⟩

/-- A query environment whose vector-store construction raises. -/
def envVsDown : QueryEnv :=
  ⟨.ok none, .error "vector store down",
   fun _ _ => .error "vector store down",
   .ok (.messageContent "Hello!")⟩

/-- A pipeline environment in which download succeeds but PDF extraction
produces only empty text, so `_process_content` returns no chunks. -/
def extractEmptyEnv : PipeEnv :=
  ⟨none, .ok (), .ok [""], .ok [], .ok [], .ok (), none, fun _ => "u"⟩

/-- A pipeline environment in which the embedding step raises. -/
def embedFailEnv : PipeEnv :=
  ⟨none, .ok (), .ok ["some text"], .ok ["some text"],
   .error "embedding backend down", .ok (), none, fun n => "id-" ++ toString n⟩

/-- A freshly uploaded file-backed document record. -/
def pendingFileDoc : DocRecord := ⟨"pending", none, [], none, some "uri", none⟩

/-- One stored vector row of document `doc1`. -/
def rowChunk : Chunk := ⟨"v1", "doc1", "v1", "row text", [1], "meta"⟩

/-- Deletion state: record, one vector row, and the backing file present. -/
def delStateFile : DocumentProcessor.DelState :=
  ⟨some pendingFileDoc, [rowChunk], true⟩

/-- Deletion environment in which `blob.delete()` raises. -/
def delEnvBad : DocumentProcessor.DelEnv := ⟨true, .error "storage failure", .ok ()⟩

/-- Deletion environment in which every external call succeeds. -/
def delEnvOk : DocumentProcessor.DelEnv := ⟨true, .ok (), .ok ()⟩

/-- Spec-side wording of the high-complexity classification (spec section
4.4 step 3): at least 16 words OR any explanation-seeking keyword present. -/
def specHighQuery (q : String) : Prop :=
  16 ≤ (pyWords q).length ∨ ∃ w ∈ pyWords q, pyLower w ∈ complexIndicators

instance specHighQueryDec (q : String) : Decidable (specHighQuery q) := by
  unfold specHighQuery
  infer_instance

/-! ## Theorems -/

/-- Unfolding equation for the well-founded `search_similar` recursion. -/
theorem search_similar_eq (hits : List Hit) (limit : ℕ) (cutoff : ℚ) :
    MilvusDB.search_similar hits limit cutoff =
      if (cutoffFilter hits limit cutoff).isEmpty = true ∧ (2/5 : ℚ) < cutoff then
        MilvusDB.search_similar hits limit (cutoff - 1/5)
      else cutoffFilter hits limit cutoff := by
  rw [MilvusDB.search_similar]
  split <;> rfl

/-- `validate_embeddings` keeps exactly the records passing the per-record
checks, each with its truncation/serialization mutations applied, in input
order. -/
theorem validate_embeddings_eq_filter_map (dim : ℕ) (datas : List ChunkRecord) :
    MilvusDB.validate_embeddings dim datas =
      (datas.filter (recordValid dim)).map normalizeRecord := by
  induction datas with
  | nil => rfl
  | cons r rest ih =>
      by_cases hr : recordValid dim r = true
      · simp [MilvusDB.validate_embeddings, List.filter_cons, hr, ih]
      · simp only [Bool.not_eq_true] at hr
        simp [MilvusDB.validate_embeddings, List.filter_cons, hr, ih]

/-- Claim C2: vector-store insert validation. CORRECTED — the claimed
behavior ("for both backends ... only the valid subset is inserted; the
returned ID list is exactly the IDs of the valid records") holds for the
Milvus backend only. `QdrantDB.insert_embeddings` performs no validation:
it upserts every record and returns every input id. For the Milvus backend,
validation keeps exactly the records with all required fields, a
matching-dimension embedding and no NaN component, truncates oversized
text/metadata rather than rejecting, and the returned ID list is exactly
the ids of that valid subset. -/
theorem C2_amended_insert_validation (dim : ℕ) (datas : List ChunkRecord)
    (hne : datas ≠ []) :
    MilvusDB.validate_embeddings dim datas =
      (datas.filter (recordValid dim)).map normalizeRecord ∧
    MilvusDB.insert_embeddings dim true true datas =
      .ok ((datas.filter (recordValid dim)).map (fun r => r.id.getD "")) ∧
    QdrantDB.insert_embeddings true datas = .ok (datas.map (·.id)) := by
  refine ⟨validate_embeddings_eq_filter_map dim datas, ?_, ?_⟩
  · have hde : datas.isEmpty = false := by
      cases datas with
      | nil => exact absurd rfl hne
      | cons a l => rfl
    simp only [MilvusDB.insert_embeddings, hde, Bool.false_eq_true, if_false,
      Bool.not_true, validate_embeddings_eq_filter_map]
    by_cases hv : (datas.filter (recordValid dim)).isEmpty = true
    · rw [List.isEmpty_iff] at hv
      simp [hv]
    · have hvm : ¬(((datas.filter (recordValid dim)).map normalizeRecord).isEmpty = true) := by
        rw [List.isEmpty_iff] at hv ⊢
        simpa [List.map_eq_nil_iff] using hv
      rw [if_neg hvm]
      simp [List.map_map, Function.comp, normalizeRecord]
  · simp [QdrantDB.insert_embeddings, hne]

/-- Witness for C2: in the batch `[goodRec, badRec]` (dimension 3), exactly
the wrong-dimension record is excluded by the Milvus backend and the
returned ID list is the single valid id. -/
theorem C2_amended_insert_validation_witness :
    [goodRec, badRec] ≠ [] ∧
    MilvusDB.insert_embeddings 3 true true [goodRec, badRec] = .ok ["a"] := by
  refine ⟨by simp, ?_⟩
  have h := (C2_amended_insert_validation 3 [goodRec, badRec] (by simp)).2.1
  rw [h]
  norm_num [goodRec, badRec, recordValid, List.filter, FVal.isNaN]

/-- Counterexample for C2: the Qdrant backend accepts the same batch whole —
it returns both ids, including the wrong-dimension record's, while only one
record passes validation. -/
theorem C2_counterexample_qdrant_no_validation :
    QdrantDB.insert_embeddings true [goodRec, badRec] =
      .ok [some "a", some "b"] ∧
    MilvusDB.validate_embeddings 3 [goodRec, badRec] = [normalizeRecord goodRec] := by
  constructor
  · norm_num [QdrantDB.insert_embeddings, goodRec, badRec]
  · rw [validate_embeddings_eq_filter_map]
    norm_num [goodRec, badRec, recordValid, List.filter, FVal.isNaN]

/-- Claim C3: initialization idempotence. CORRECTED — the claimed behavior
("calling it when the collection already exists is safe — it leaves the
existing collection and its stored records unchanged") holds for the Milvus
backend only: `initialize_collection` creates the collection (configured
dimension, COSINE index) only when absent and is idempotent. The Qdrant
setup instead DELETES an existing collection and recreates it empty,
destroying all stored records. -/
theorem C3_amended_init_idempotent_milvus (dim : ℕ) (st : VColl) :
    (MilvusDB.init_collection true dim
        (MilvusDB.init_collection true dim st).2).2 =
      (MilvusDB.init_collection true dim st).2 ∧
    (st.present = true → MilvusDB.init_collection true dim st = (true, st)) ∧
    (st.present = false →
      MilvusDB.init_collection true dim st = (true, ⟨true, dim, "COSINE", []⟩)) ∧
    (∀ st2 : VColl, QdrantDB.init_collection dim st2 = ⟨true, dim, "COSINE", []⟩) := by
  by_cases hp : st.present = true
  · refine ⟨?_, fun _ => ?_, fun hf => ?_, fun _ => rfl⟩
    · simp [MilvusDB.init_collection, hp]
    · simp [MilvusDB.init_collection, hp]
    · rw [hp] at hf; exact absurd hf (by simp)
  · simp only [Bool.not_eq_true] at hp
    refine ⟨?_, fun ht => ?_, fun _ => ?_, fun _ => rfl⟩
    · simp [MilvusDB.init_collection, hp]
    · rw [hp] at ht; exact absurd ht (by simp)
    · simp [MilvusDB.init_collection, hp]

/-- Witness for C3: a populated existing collection is left unchanged by the
Milvus initialization. -/
theorem C3_amended_init_idempotent_milvus_witness :
    popVColl.present = true ∧
    MilvusDB.init_collection true 3 popVColl = (true, popVColl) :=
  ⟨rfl, (C3_amended_init_idempotent_milvus 3 popVColl).2.1 rfl⟩

/-- Counterexample for C3: running the Qdrant setup on an existing,
populated collection wipes its stored records. -/
theorem C3_counterexample_qdrant_init_destroys :
    QdrantDB.init_collection 3 popVColl = ⟨true, 3, "COSINE", []⟩ ∧
    popVColl.rows ≠ [] := by
  exact ⟨rfl, by simp [popVColl]⟩

/-- Characterization of the Milvus search recursion: the result is the
cutoff filter at some effective cutoff `c' ≤ cutoff`; either no relaxation
happened (`c' = cutoff`) or the first pass was empty and every relaxation
step started above the 0.4 floor, so `c' > 0.2`. -/
theorem milvus_search_spec (hits : List Hit) (limit : ℕ) (cutoff : ℚ) :
    ∃ c', c' ≤ cutoff ∧
      MilvusDB.search_similar hits limit cutoff = cutoffFilter hits limit c' ∧
      (c' = cutoff ∨ (cutoffFilter hits limit cutoff = [] ∧ (1/5 : ℚ) < c')) := by
  refine MilvusDB.search_similar.induct hits limit
    (motive := fun c => ∃ c', c' ≤ c ∧
      MilvusDB.search_similar hits limit c = cutoffFilter hits limit c' ∧
      (c' = c ∨ (cutoffFilter hits limit c = [] ∧ (1/5 : ℚ) < c'))) ?_ ?_ cutoff
  · intro x res hcond ih
    obtain ⟨c', hle, heq, hor⟩ := ih
    refine ⟨c', by linarith [hcond.2], ?_, ?_⟩
    · rw [search_similar_eq, if_pos hcond]
      exact heq
    · right
      have hfe : cutoffFilter hits limit x = [] :=
        List.isEmpty_iff.mp hcond.1
      refine ⟨hfe, ?_⟩
      rcases hor with h1 | h2
      · rw [h1]; linarith [hcond.2]
      · exact h2.2
  · intro x res hcond
    exact ⟨x, le_refl _, by rw [search_similar_eq, if_neg hcond], .inl rfl⟩

/-- Claim C4: similarity-search cutoff relaxation. CORRECTED — the claimed
behavior holds for the Milvus backend only. There, assuming the server
returns hits in descending score order, the result stays in descending
order, a non-empty first pass is returned as-is (all scores ≥ cutoff), an
empty first pass above the 0.4 floor retries at cutoff − 0.2 (so every
returned element either meets the requested cutoff or was obtained after
relaxation from an empty pass, with score still above 0.2), and the spec's
0.6-cutoff/0.5-match example returns the match. `QdrantDB.search_similar`
performs NO relaxation: it is a single cutoff filter and returns empty when
nothing meets the cutoff. -/
theorem C4_amended_relaxation_milvus (hits : List Hit) (limit : ℕ) (cutoff : ℚ)
    (hs : List.Pairwise (fun a b => b.score ≤ a.score) hits) :
    List.Pairwise (fun a b => b.score ≤ a.score)
      (MilvusDB.search_similar hits limit cutoff) ∧
    (∀ h ∈ MilvusDB.search_similar hits limit cutoff,
        cutoff ≤ h.score ∨
          (cutoffFilter hits limit cutoff = [] ∧ (1/5 : ℚ) < h.score)) ∧
    (cutoffFilter hits limit cutoff ≠ [] →
        MilvusDB.search_similar hits limit cutoff = cutoffFilter hits limit cutoff) ∧
    (cutoffFilter hits limit cutoff = [] ∧ (2/5 : ℚ) < cutoff →
        MilvusDB.search_similar hits limit cutoff =
          MilvusDB.search_similar hits limit (cutoff - 1/5)) ∧
    QdrantDB.search_similar hits limit cutoff = cutoffFilter hits limit cutoff ∧
    (∀ h ∈ QdrantDB.search_similar hits limit cutoff, cutoff ≤ h.score) := by
  obtain ⟨c', hle, heq, hor⟩ := milvus_search_spec hits limit cutoff
  have hsub : ∀ c : ℚ, (cutoffFilter hits limit c).Sublist hits :=
    fun c => (List.filter_sublist _).trans (List.take_sublist _ _)
  have hmem : ∀ (c : ℚ), ∀ h ∈ cutoffFilter hits limit c, c ≤ h.score := by
    intro c h hm
    have := (List.mem_filter.mp hm).2
    simp only [Bool.not_eq_true', decide_eq_false_iff_not, not_lt] at this
    exact this
  refine ⟨?_, ?_, ?_, ?_, rfl, ?_⟩
  · rw [heq]
    exact hs.sublist (hsub c')
  · intro h hm
    rw [heq] at hm
    have hsc : c' ≤ h.score := hmem c' h hm
    rcases hor with h1 | h2
    · exact .inl (h1 ▸ hsc)
    · exact .inr ⟨h2.1, lt_of_lt_of_le h2.2 hsc⟩
  · intro hne
    rw [search_similar_eq, if_neg]
    intro hco
    exact hne (List.isEmpty_iff.mp hco.1)
  · intro hco
    rw [search_similar_eq, if_pos ⟨List.isEmpty_iff.mpr hco.1, hco.2⟩]
  · intro h hm
    exact hmem cutoff h hm

/-- Witness for C4: the singleton 0.5-scoring corpus is sorted, and the
amended theorem applies to it at cutoff 0.6. -/
theorem C4_amended_relaxation_milvus_witness :
    List.Pairwise (fun a b => b.score ≤ a.score) [h05] ∧
    QdrantDB.search_similar [h05] 3 (3/5) = cutoffFilter [h05] 3 (3/5) :=
  ⟨List.pairwise_singleton _ _,
    (C4_amended_relaxation_milvus [h05] 3 (3/5)
      (List.pairwise_singleton _ _)).2.2.2.2.1⟩

/-- Counterexample for C4: on a corpus whose only match scores 0.5, a search
with cutoff 0.6 returns the match on the Milvus backend (one relaxation to
0.4) but returns EMPTY on the Qdrant backend, refuting the claim that both
backends relax the cutoff. -/
theorem C4_counterexample_qdrant_no_relaxation :
    MilvusDB.search_similar [h05] 3 (3/5) = [h05] ∧
    QdrantDB.search_similar [h05] 3 (3/5) = [] := by
  constructor
  · rw [search_similar_eq]
    rw [if_pos (by norm_num [cutoffFilter, List.filter, h05])]
    rw [search_similar_eq]
    rw [if_neg (by norm_num [cutoffFilter, List.filter, h05])]
    norm_num [cutoffFilter, List.filter, h05]
  · norm_num [QdrantDB.search_similar, cutoffFilter, List.filter, h05]

/-- Claim C5: query-engine totality. CONFIRMED — `query` is a total function
of its environment (every external exception is an `Except.error` value it
handles), and on an empty document scope it returns status `no_documents`
with empty sources, zero tokens, and the LLM-only response text, which is
non-empty under the environment assumption `llmNonempty` (the provider does
not return an empty content string; every failure shape is replaced by a
canned non-empty message). -/
theorem C5_query_empty_scope_total (g : LlmSettings) (env : QueryEnv)
    (q : String) (t : Option ℚ)
    (hne : QueryEngine.llmNonempty env = true) :
    (QueryEngine.query g env q (some []) none t).status = "no_documents" ∧
    (QueryEngine.query g env q (some []) none t).sources = [] ∧
    (QueryEngine.query g env q (some []) none t).tokens = 0 ∧
    (QueryEngine.query g env q (some []) none t).text ≠ "" := by
  refine ⟨rfl, rfl, rfl, ?_⟩
  show QueryEngine.query_llm_only env ≠ ""
  unfold QueryEngine.llmNonempty at hne
  unfold QueryEngine.query_llm_only
  cases henv : env.llmResult with
  | error m => simp
  | ok resp =>
      rw [henv] at hne
      cases resp with
      | messageContent s => simpa using hne
      | dictContent s => simpa using hne
      | strContent s => simpa using hne
      | otherShape => simp

/-- Witness for C5: the all-successful environment satisfies the
non-empty-content assumption, and the empty-scope query returns the claimed
tuple. -/
theorem C5_query_empty_scope_total_witness :
    QueryEngine.llmNonempty envLlmOk = true ∧
    (QueryEngine.query defaultLlmSettings envLlmOk "hello" (some []) none none).status
        = "no_documents" ∧
    (QueryEngine.query defaultLlmSettings envLlmOk "hello" (some []) none none).text ≠ "" :=
  ⟨rfl,
    (C5_query_empty_scope_total defaultLlmSettings envLlmOk "hello" none rfl).1,
    (C5_query_empty_scope_total defaultLlmSettings envLlmOk "hello" none rfl).2.2.2⟩

/-- Claim C6: complexity-adaptive retrieval parameters. CONFIRMED — the
classifier returns `high` iff the query has at least 16 words or contains a
keyword, `medium` iff 9–15 words and no keyword, `low` otherwise, and the
engine maps these to (8, 0.5), (5, 0.55) and (3, 0.6); "why does X happen"
is high and "hi" is low. -/
theorem C6_complexity_adaptive_params (q : String) :
    (QueryEngine.assess_query_complexity q = "high" ↔ specHighQuery q) ∧
    (QueryEngine.assess_query_complexity q = "medium" ↔
      (¬ specHighQuery q ∧ 9 ≤ (pyWords q).length ∧ (pyWords q).length ≤ 15)) ∧
    (QueryEngine.assess_query_complexity q = "low" ↔
      (¬ specHighQuery q ∧ (pyWords q).length ≤ 8)) ∧
    (QueryEngine.assess_query_complexity q = "high" →
      QueryEngine.retrieval_params q = (8, 1/2)) ∧
    (QueryEngine.assess_query_complexity q = "medium" →
      QueryEngine.retrieval_params q = (5, 11/20)) ∧
    (QueryEngine.assess_query_complexity q = "low" →
      QueryEngine.retrieval_params q = (3, 3/5)) ∧
    QueryEngine.assess_query_complexity "why does X happen" = "high" ∧
    QueryEngine.assess_query_complexity "hi" = "low" := by
  have hb : ((pyWords q).length > 15 ||
      (pyWords q).any (fun w => complexIndicators.contains (pyLower w))) = true ↔
        specHighQuery q := by
    simp only [Bool.or_eq_true, decide_eq_true_eq, List.any_eq_true, specHighQuery,
      List.elem_iff]
    constructor
    · rintro (h | h)
      · exact .inl (by omega)
      · exact .inr h
    · rintro (h | h)
      · exact .inl (by omega)
      · exact .inr h
  have hassess : QueryEngine.assess_query_complexity q =
      (if specHighQuery q then "high"
       else if 8 < (pyWords q).length then "medium" else "low") := by
    simp only [QueryEngine.assess_query_complexity]
    by_cases hs : specHighQuery q
    · rw [if_pos (hb.mpr hs), if_pos hs]
    · rw [if_neg (fun hc => hs (hb.mp hc)), if_neg hs]
  refine ⟨?_, ?_, ?_, ?_, ?_, ?_, rfl, rfl⟩
  · rw [hassess]
    by_cases hs : specHighQuery q
    · simp [hs]
    · rw [if_neg hs]
      constructor
      · intro h
        by_cases hm : 8 < (pyWords q).length
        · rw [if_pos hm] at h
          exact absurd h (by decide)
        · rw [if_neg hm] at h
          exact absurd h (by decide)
      · intro h
        exact absurd h hs
  · rw [hassess]
    by_cases hs : specHighQuery q
    · rw [if_pos hs]
      constructor
      · intro h
        exact absurd h (by decide)
      · rintro ⟨hns, -, -⟩
        exact absurd hs hns
    · rw [if_neg hs]
      by_cases hm : 8 < (pyWords q).length
      · rw [if_pos hm]
        have hlen15 : (pyWords q).length ≤ 15 := by
          by_contra hl
          exact hs (.inl (by omega))
        exact ⟨fun _ => ⟨hs, by omega, hlen15⟩, fun _ => rfl⟩
      · rw [if_neg hm]
        constructor
        · intro h
          exact absurd h (by decide)
        · rintro ⟨-, h9, -⟩
          omega
  · rw [hassess]
    by_cases hs : specHighQuery q
    · rw [if_pos hs]
      constructor
      · intro h
        exact absurd h (by decide)
      · rintro ⟨hns, -⟩
        exact absurd hs hns
    · rw [if_neg hs]
      by_cases hm : 8 < (pyWords q).length
      · rw [if_pos hm]
        constructor
        · intro h
          exact absurd h (by decide)
        · rintro ⟨-, h8⟩
          omega
      · rw [if_neg hm]
        exact ⟨fun _ => ⟨hs, by omega⟩, fun _ => rfl⟩
  · intro h
    simp [QueryEngine.retrieval_params, h]
  · intro h
    simp [QueryEngine.retrieval_params, h]
  · intro h
    simp [QueryEngine.retrieval_params, h]

/-- Witness for C6: the theorem's mapping clause applied to the keyword
query gives (top_k, cutoff) = (8, 0.5). -/
theorem C6_complexity_adaptive_params_witness :
    QueryEngine.retrieval_params "why does X happen" = (8, 1/2) :=
  (C6_complexity_adaptive_params "why does X happen").2.2.2.1 rfl

/-- Claim C9: per-call LLM parameterization without shared-state mutation.
CORRECTED — the LLM-only path (empty scope) builds a local client and leaves
the global `Settings` unchanged, but on the retrieval path
`create_service_context` assigns a NEW client carrying the per-call
temperature override to the global shared `Settings.llm` and never restores
it: after the call the shared state still holds the override, so a
concurrent call could observe it. -/
theorem C9_amended_settings_mutation (g : LlmSettings) (env : QueryEnv)
    (q : String) (temp : Option ℚ) :
    (∀ ids, (ids = none ∨ ids = some ([] : List String)) →
      (QueryEngine.query g env q ids none temp).settingsAfter = g) ∧
    (∀ x l, (QueryEngine.query g env q (some (x :: l)) none temp).settingsAfter =
      QueryEngine.create_service_context temp) ∧
    (∀ t : ℚ, (QueryEngine.create_service_context (some t)).temperature = t) ∧
    QueryEngine.create_service_context none = defaultLlmSettings := by
  refine ⟨?_, ?_, fun t => rfl, rfl⟩
  · rintro ids (rfl | rfl) <;> rfl
  · intro x l
    cases hcv : env.createVS with
    | error m =>
        simp [QueryEngine.query, QueryEngine.idsFalsy, hcv,
          QueryEngine.innerErrorOutcome]
    | ok u =>
        cases hrr : env.ragResponse (QueryEngine.retrieval_params q).1
            (QueryEngine.retrieval_params q).2 with
        | error m =>
            simp [QueryEngine.query, QueryEngine.idsFalsy, hcv, hrr,
              QueryEngine.innerErrorOutcome]
        | ok r =>
            simp [QueryEngine.query, QueryEngine.idsFalsy, hcv, hrr,
              QueryEngine.ragPathOutcome]

/-- Witness for C9: the empty-scope clause of the amended theorem at a
concrete call. -/
theorem C9_amended_settings_mutation_witness :
    (QueryEngine.query defaultLlmSettings envLlmOk "hello" (some []) none
        (some (9/10))).settingsAfter = defaultLlmSettings :=
  (C9_amended_settings_mutation defaultLlmSettings envLlmOk "hello"
    (some (9/10))).1 (some []) (.inr rfl)

/-- Counterexample for C9: a retrieval-path call with temperature override
0.9 leaves the global `Settings.llm` carrying temperature 0.9 after the
call, not the 0.7 default it held before — the shared state IS mutated. -/
theorem C9_counterexample_global_mutated :
    (QueryEngine.query defaultLlmSettings envLlmOk "hello" (some ["d1"]) none
        (some (9/10))).settingsAfter.temperature = 9/10 ∧
    defaultLlmSettings.temperature = 7/10 ∧
    (QueryEngine.query defaultLlmSettings envLlmOk "hello" (some ["d1"]) none
        (some (9/10))).settingsAfter ≠ defaultLlmSettings := by
  refine ⟨rfl, rfl, ?_⟩
  intro h
  have h2 : (9/10 : ℚ) = 7/10 := congrArg LlmSettings.temperature h
  norm_num at h2

/-- Claim C10: fallback paths return empty sources and a zero token
estimate. CONFIRMED — on the empty-scope path (`no_documents`), on a
vector-store or retrieval exception (`error`), and on the outer exception
handler for chatbot resolution (`llm_fallback`), sources are `[]` and the
token estimate is 0; the word-count token estimate is computed exactly on
the path where the search ran. -/
theorem C10_fallback_empty_sources_zero_tokens (g : LlmSettings)
    (env : QueryEnv) (q : String) (temp : Option ℚ) :
    (∀ ids, (ids = none ∨ ids = some ([] : List String)) →
      (QueryEngine.query g env q ids none temp).status = "no_documents" ∧
      (QueryEngine.query g env q ids none temp).sources = [] ∧
      (QueryEngine.query g env q ids none temp).tokens = 0) ∧
    (∀ x l m, env.createVS = .error m →
      (QueryEngine.query g env q (some (x :: l)) none temp).status = "error" ∧
      (QueryEngine.query g env q (some (x :: l)) none temp).sources = [] ∧
      (QueryEngine.query g env q (some (x :: l)) none temp).tokens = 0) ∧
    (∀ x l m, env.createVS = .ok () →
      env.ragResponse (QueryEngine.retrieval_params q).1
        (QueryEngine.retrieval_params q).2 = .error m →
      (QueryEngine.query g env q (some (x :: l)) none temp).status = "error" ∧
      (QueryEngine.query g env q (some (x :: l)) none temp).sources = [] ∧
      (QueryEngine.query g env q (some (x :: l)) none temp).tokens = 0) ∧
    (∀ cb m, env.getChatbot = .error m →
      (QueryEngine.query g env q none (some cb) temp).status = "llm_fallback" ∧
      (QueryEngine.query g env q none (some cb) temp).sources = [] ∧
      (QueryEngine.query g env q none (some cb) temp).tokens = 0) ∧
    (∀ cb, env.getChatbot = .ok none →
      (QueryEngine.query g env q none (some cb) temp).status = "llm_fallback" ∧
      (QueryEngine.query g env q none (some cb) temp).sources = [] ∧
      (QueryEngine.query g env q none (some cb) temp).tokens = 0) ∧
    (∀ x l r, env.createVS = .ok () →
      env.ragResponse (QueryEngine.retrieval_params q).1
        (QueryEngine.retrieval_params q).2 = .ok r →
      (QueryEngine.query g env q (some (x :: l)) none temp).tokens =
        (pyWords q).length +
          (pyWords (if r.text.trim = "" then QueryEngine.emptyRagApology
            else r.text)).length) := by
  refine ⟨?_, ?_, ?_, ?_, ?_, ?_⟩
  · rintro ids (rfl | rfl) <;> exact ⟨rfl, rfl, rfl⟩
  · intro x l m hcv
    simp [QueryEngine.query, QueryEngine.idsFalsy, hcv,
      QueryEngine.innerErrorOutcome]
  · intro x l m hcv hrr
    simp [QueryEngine.query, QueryEngine.idsFalsy, hcv, hrr,
      QueryEngine.innerErrorOutcome]
  · intro cb m hgc
    simp [QueryEngine.query, QueryEngine.idsFalsy, hgc]
  · intro cb hgc
    simp [QueryEngine.query, QueryEngine.idsFalsy, hgc]
  · intro x l r hcv hrr
    simp [QueryEngine.query, QueryEngine.idsFalsy, hcv, hrr,
      QueryEngine.ragPathOutcome]

/-- Witness for C10: the empty-scope clause of the theorem at a concrete
call (environment with the vector store down, which the path never
touches). -/
theorem C10_fallback_empty_sources_zero_tokens_witness :
    (QueryEngine.query defaultLlmSettings envVsDown "hi" (some []) none none).status
        = "no_documents" ∧
    (QueryEngine.query defaultLlmSettings envVsDown "hi" (some []) none none).sources
        = [] ∧
    (QueryEngine.query defaultLlmSettings envVsDown "hi" (some []) none none).tokens
        = 0 :=
  (C10_fallback_empty_sources_zero_tokens defaultLlmSettings envVsDown "hi"
    none).1 (some []) (.inr rfl)

/-- Claim C1: document record invariant on completion. CODE BUG — the
immediate-processing entrypoint violates the invariant: when text
extraction yields no usable text, `_process_content` returns zero chunks,
yet `process_document_immediately` still writes
`processingStatus = "completed"` with `chunkCount = 0` and never writes
`vectorIds` (left empty), so `completed` holds with `chunkCount = 0` and
`len(vectorIds) ≠ chunkCount` whenever chunks exist. The main
`process_document` path checks `if not chunks` and fails instead. -/
theorem C1_immediate_completes_with_zero_chunks :
    DocumentProcessor.process_document_immediately (fun _ => extractEmptyEnv)
        "doc1" (some pendingFileDoc) =
      (.ok true, some ⟨"completed", some 0, [], none, some "uri", none⟩) :=
  rfl

/-- The main pipeline path, by contrast, marks the same document `failed`
with a non-null error when no chunks are produced — the invariant the spec
states, which the immediate path breaks. -/
theorem process_document_fails_on_empty_extraction :
    DocumentProcessor.process_document extractEmptyEnv "doc1"
        (some pendingFileDoc) =
      (.error "No chunks created",
        some ⟨"failed", none, [], some "No chunks created", some "uri", none⟩,
        ⟨true, true⟩) :=
  rfl

/-- Claim C7: cascade deletion with best-effort file removal. CORRECTED —
the cascade order (vector rows, then backing file, then record) is as
claimed and a missing record returns `false`; but the file-deletion step is
NOT best-effort: `FirebaseStorage.delete_file` has no exception handling,
so a storage failure propagates out of `delete_document` and the document
record is NOT deleted. -/
theorem C7_amended_cascade_delete (env : DocumentProcessor.DelEnv)
    (docId : String) (st : DocumentProcessor.DelState) (d : DocRecord)
    (hd : st.doc = some d) (hv : env.vdelOk = true)
    (hf : env.fileDelRes = .ok ()) (hdoc : env.docDelRes = .ok ()) :
    (DocumentProcessor.delete_document env docId st).1 = .ok true ∧
    (DocumentProcessor.delete_document env docId st).2.doc = none ∧
    (DocumentProcessor.delete_document env docId st).2.vrows =
      st.vrows.filter (fun c => c.document_id ≠ docId) ∧
    (d.storageUri.isSome = true →
      (DocumentProcessor.delete_document env docId st).2.filePresent = false) ∧
    (∀ st2 : DocumentProcessor.DelState, st2.doc = none →
      DocumentProcessor.delete_document env docId st2 = (.ok false, st2)) := by
  refine ⟨?_, ?_, ?_, ?_, ?_⟩
  · cases hsu : d.storageUri <;>
      simp [DocumentProcessor.delete_document, hd, hv, hf, hdoc, hsu]
  · cases hsu : d.storageUri <;>
      simp [DocumentProcessor.delete_document, hd, hv, hf, hdoc, hsu]
  · cases hsu : d.storageUri <;>
      simp [DocumentProcessor.delete_document, hd, hv, hf, hdoc, hsu]
  · intro hs
    obtain ⟨u, hu⟩ := Option.isSome_iff_exists.mp hs
    simp [DocumentProcessor.delete_document, hd, hv, hf, hdoc, hu]
  · intro st2 h2
    simp [DocumentProcessor.delete_document, h2]

/-- Witness for C7: the all-successful deletion environment removes the
record, its vector rows, and its file. -/
theorem C7_amended_cascade_delete_witness :
    (DocumentProcessor.delete_document delEnvOk "doc1" delStateFile).1 = .ok true ∧
    (DocumentProcessor.delete_document delEnvOk "doc1" delStateFile).2.doc = none :=
  ⟨(C7_amended_cascade_delete delEnvOk "doc1" delStateFile pendingFileDoc
      rfl rfl rfl rfl).1,
    (C7_amended_cascade_delete delEnvOk "doc1" delStateFile pendingFileDoc
      rfl rfl rfl rfl).2.1⟩

/-- Counterexample for C7: when `blob.delete()` raises, `delete_document`
propagates the exception and the document record survives — the failure is
neither logged-and-ignored nor followed by record deletion. -/
theorem C7_counterexample_file_failure_aborts :
    DocumentProcessor.delete_document delEnvBad "doc1" delStateFile =
      (.error "storage failure", ⟨some pendingFileDoc, [], true⟩) ∧
    (DocumentProcessor.delete_document delEnvBad "doc1" delStateFile).2.doc ≠
      none := by
  refine ⟨rfl, ?_⟩
  intro hcontra
  have h2 : some pendingFileDoc = (none : Option DocRecord) := hcontra
  exact Option.noConfusion h2

/-- Claim C8: cleanup guarantee. CONFIRMED — for a file-backed document
whose record fetch and download succeed, the `finally` block runs the
cleanup step on every exit of content processing (extraction, chunking,
embedding and storage failures included, since `_process_content` converts
every step exception into an empty result), and the scratch file is removed
whenever `os.unlink` itself succeeds. -/
theorem C8_cleanup_always_runs (env : PipeEnv) (docId : String) (d : DocRecord)
    (hget : env.getErr = none) (hsu : d.storageUri.isSome = true)
    (hdl : env.downloadRes = .ok ()) :
    (DocumentProcessor.process_document env docId (some d)).2.2.cleanupRan = true ∧
    (env.unlinkErr = none →
      (DocumentProcessor.process_document env docId (some d)).2.2.tempFileRemoved
        = true) := by
  have hfp : ∀ (c : List Chunk) (s : PipelineState) (t : PipeTrace),
      (DocumentProcessor.finishProcess c s t).2.2 = t := by
    intro c s t
    unfold DocumentProcessor.finishProcess
    split <;> rfl
  obtain ⟨u, hu⟩ := Option.isSome_iff_exists.mp hsu
  have hstep : (DocumentProcessor.process_document env docId (some d)).2.2 =
      ⟨true, env.unlinkErr.isNone⟩ := by
    simp [DocumentProcessor.process_document, hget, hu, hdl, hfp]
  refine ⟨?_, fun hun => ?_⟩
  · rw [hstep]
  · rw [hstep]
    simp [hun]

/-- Witness for C8: even when the embedding step raises, the cleanup step
runs and the scratch file is removed. -/
theorem C8_cleanup_always_runs_witness :
    (DocumentProcessor.process_document embedFailEnv "doc1"
        (some pendingFileDoc)).2.2.cleanupRan = true ∧
    (DocumentProcessor.process_document embedFailEnv "doc1"
        (some pendingFileDoc)).2.2.tempFileRemoved = true :=
  ⟨(C8_cleanup_always_runs embedFailEnv "doc1" pendingFileDoc rfl rfl rfl).1,
    (C8_cleanup_always_runs embedFailEnv "doc1" pendingFileDoc rfl rfl rfl).2 rfl⟩
